import Mathlib

/-!
Verification development for the Thrift Savings Management application
(`src/app.py`).  The Python code is shallowly embedded: currency amounts and
interest rates (Python floats holding decimal values) become `ℚ`, `days_held`
(a Python `int`) becomes `ℤ`, JSON dictionaries of member records become
association lists `List (String × Member)` with Python-dict update semantics,
and optional/absent dictionary keys become `Option` fields.  Python's
`round(x, 2)` (round-half-to-even at two decimals) is `round2` below.
-/

/-- Round a rational to the nearest integer, ties to even — the behaviour of
Python's builtin `round` on exact values. -/
def roundHalfEven (q : ℚ) : ℤ :=
  let n := ⌊q⌋
  let frac := q - (n : ℚ)
  if frac < 1/2 then n
  else if 1/2 < frac then n + 1
  else if n % 2 = 0 then n else n + 1

/-- Python's `round(x, 2)`: round to two decimal places, ties to even. -/
def round2 (q : ℚ) : ℚ := (roundHalfEven (q * 100) : ℚ) / 100

/-- Decimal rendering of a non-negative one-decimal-place rate, as Python's
f-string renders the floats `10.8` and `8.5`
(e.g. `ratRepr 10.8 = "10.8"`). -/
def ratRepr (r : ℚ) : String :=
  toString ⌊r⌋ ++ "." ++ toString (⌊r * 10⌋ - 10 * ⌊r⌋)

/-- Result dictionary of `ThriftManager.calculate_interest`. -/
structure InterestResult where
  InterestRate : ℚ
  InterestAmount : ℚ
  TransactionType : String
  InterestBand : String
deriving DecidableEq

/-- `ThriftManager.calculate_interest` (src/app.py lines 41–59): tiered rate
selection, simple daily interest over a 36500 (= 100 × 365) divisor, rounded
to two decimals, plus the transaction-type classification and the rate's
display band. -/
def calculate_interest (recovery_amount : ℚ) (days_held : ℤ)
    (has_receipt : Bool) : InterestResult :=
  let sel : ℚ × String :=
    if recovery_amount ≥ 100000 then
      (10.8, if has_receipt then "Bulk" else "Monthly")
    else
      (8.5, if has_receipt then "Bulk" else "Monthly")
  let interest_rate := sel.1
  let transaction_type := sel.2
  let interest_amount := recovery_amount * interest_rate * (days_held : ℚ) / 36500
  { InterestRate := interest_rate
    InterestAmount := round2 interest_amount
    TransactionType := transaction_type
    InterestBand := ratRepr interest_rate ++ "%" }

/-- The tier rate the spec associates to a recovery amount: `10.8` at or above
one lakh (100000), `8.5` below it. -/
def tierRate (recovery_amount : ℚ) : ℚ :=
  if recovery_amount ≥ 100000 then 10.8 else 8.5

/-- Evaluation helper: `round2` rounds down when the scaled value sits below
the midpoint. -/
theorem round2_eq_down (q : ℚ) (n : ℤ) (h1 : (n : ℚ) ≤ q * 100)
    (h2 : q * 100 < (n : ℚ) + 1/2) : round2 q = (n : ℚ) / 100 := by
  have hf : ⌊q * 100⌋ = n := by
    rw [Int.floor_eq_iff]
    constructor
    · exact h1
    · linarith
  unfold round2 roundHalfEven
  rw [hf]
  have hlt : q * 100 - (n : ℚ) < 1/2 := by linarith
  rw [if_pos hlt]

/-- Evaluation helper: floor of a rational between two consecutive
integers. -/
theorem ratFloor_eq (q : ℚ) (n : ℤ) (h1 : (n : ℚ) ≤ q)
    (h2 : q < (n : ℚ) + 1) : ⌊q⌋ = n := by
  rw [Int.floor_eq_iff]
  constructor
  · exact h1
  · linarith

theorem ratRepr_ten_point_eight : ratRepr 10.8 = "10.8" := by
  unfold ratRepr
  rw [ratFloor_eq (10.8 : ℚ) 10 (by norm_num) (by norm_num),
    ratFloor_eq ((10.8 : ℚ) * 10) 108 (by norm_num) (by norm_num)]
  rfl

theorem ratRepr_eight_point_five : ratRepr 8.5 = "8.5" := by
  unfold ratRepr
  rw [ratFloor_eq (8.5 : ℚ) 8 (by norm_num) (by norm_num),
    ratFloor_eq ((8.5 : ℚ) * 10) 85 (by norm_num) (by norm_num)]
  rfl

/-- Claim C2: the returned `InterestRate` is `10.8` when
`recovery_amount ≥ 100000` and `8.5` otherwise, independent of `days_held`
and `has_receipt`. -/
theorem calculate_interest_rate_tier (r : ℚ) (d : ℤ) (b : Bool) :
    (calculate_interest r d b).InterestRate =
      if r ≥ 100000 then (10.8 : ℚ) else 8.5 := by
  unfold calculate_interest
  split <;> rfl

/-- Claim C3: the returned `TransactionType` is `"Bulk"` exactly when
`has_receipt` is true, else `"Monthly"`, in both rate tiers. -/
theorem calculate_interest_transaction_type (r : ℚ) (d : ℤ) (b : Bool) :
    (calculate_interest r d b).TransactionType =
        (if b then "Bulk" else "Monthly")
      ∧ ((calculate_interest r d b).TransactionType = "Bulk" ↔ b = true) := by
  unfold calculate_interest
  constructor
  · split <;> rfl
  · split <;> cases b <;> simp

/-- Claim C9: every result has `InterestBand` equal to the rate formatted as
`"<rate>%"`; concretely the band is `"10.8%"` in the upper tier and `"8.5%"`
in the lower. -/
theorem calculate_interest_band_spec (r : ℚ) (d : ℤ) (b : Bool) :
    (calculate_interest r d b).InterestBand =
        ratRepr (calculate_interest r d b).InterestRate ++ "%"
      ∧ (calculate_interest r d b).InterestBand =
        (if r ≥ 100000 then "10.8%" else "8.5%") := by
  unfold calculate_interest
  constructor
  · split <;> rfl
  · split
    · show ratRepr 10.8 ++ "%" = "10.8%"
      rw [ratRepr_ten_point_eight]
      decide
    · show ratRepr 8.5 ++ "%" = "8.5%"
      rw [ratRepr_eight_point_five]
      decide

/-- Claim C1 (amended): `InterestAmount` is
`round(recovery * tierRate recovery * days / 36500, 2)` for every recovery
amount and positive day count; the scenario recovery = 120000, days = 167
(rate 10.8) yields 5929.64. -/
theorem calculate_interest_formula_spec :
    (∀ (r : ℚ) (d : ℤ) (b : Bool), 0 < d →
        (calculate_interest r d b).InterestAmount =
          round2 (r * tierRate r * (d : ℚ) / 36500))
    ∧ (calculate_interest 120000 167 true).InterestAmount = 5929.64 := by
  constructor
  · intro r d b _
    unfold calculate_interest tierRate
    split <;> rfl
  · show round2 (120000 * (10.8 : ℚ) * ((167 : ℤ) : ℚ) / 36500) = 5929.64
    rw [round2_eq_down (120000 * (10.8 : ℚ) * ((167 : ℤ) : ℚ) / 36500) 592964
      (by push_cast; norm_num) (by push_cast; norm_num)]
    norm_num

/-- Witness for C1's theorem at the scenario input. -/
theorem calculate_interest_formula_spec_witness :
    (0 : ℤ) < 167 ∧ (calculate_interest 120000 167 true).InterestAmount =
      round2 (120000 * tierRate 120000 * ((167 : ℤ) : ℚ) / 36500) :=
  ⟨by decide, calculate_interest_formula_spec.1 120000 167 true (by decide)⟩

/-- Counterexample for claim C1 as stated: at recovery = 120000, days = 167 the
engine returns 5929.64, not the 5910.74 the claim asserts. -/
theorem calculate_interest_scenario_counterexample :
    (calculate_interest 120000 167 true).InterestAmount = 5929.64
    ∧ ¬ (calculate_interest 120000 167 true).InterestAmount = 5910.74 := by
  have h : (calculate_interest 120000 167 true).InterestAmount = 5929.64 := by
    show round2 (120000 * (10.8 : ℚ) * ((167 : ℤ) : ℚ) / 36500) = 5929.64
    rw [round2_eq_down (120000 * (10.8 : ℚ) * ((167 : ℤ) : ℚ) / 36500) 592964
      (by push_cast; norm_num) (by push_cast; norm_num)]
    norm_num
  constructor
  · exact h
  · rw [h]
    norm_num

/-- The `OpeningBalance` sub-dictionary of a member record.  Fields are
`Option`s because record fields are plain JSON keys that may be absent. -/
structure OpeningBal where
  Date : Option String
  ThriftBalance : Option ℚ
deriving DecidableEq

/-- A transaction dictionary as appended to a member's `ThriftRecords`.
`MSNo`-style string coercion aside, every field is optional since the JSON
store imposes no schema.  `ReceiptNumber := none` covers both an absent key
and a stored `null`. -/
structure Transaction where
  Date : Option String
  Recovery : Option ℚ
  ReceiptNumber : Option String
  Paid : Option ℚ
  Balance : Option ℚ
  DaysHeld : Option ℤ
  InterestRate : Option ℚ
  InterestAmount : Option ℚ
  TransactionType : Option String
  InterestBand : Option String
deriving DecidableEq

/-- A member record (the value stored under a `MemberID` key).  `MSNo` is
modelled as the string the code coerces it to with `str(...)`. -/
structure Member where
  MemberName : Option String
  MSNo : Option String
  ShareCapital : Option ℚ
  OpeningBalance : Option OpeningBal
  ThriftRecords : Option (List Transaction)
deriving DecidableEq

/-- Python-dict lookup on the member mapping (`self.data.get` /
`member_id in self.data`). -/
def lookupMember : List (String × Member) → String → Option Member
  | [], _ => none
  | (k, v) :: rest, id => if k = id then some v else lookupMember rest id

/-- Python-dict assignment `self.data[member_id] = member_data`: replace in
place if the key exists, else append (dicts preserve insertion order). -/
def setMember : List (String × Member) → String → Member → List (String × Member)
  | [], id, m => [(id, m)]
  | (k, v) :: rest, id, m =>
    if k = id then (id, m) :: rest else (k, v) :: setMember rest id m

/-- Top-level shape of the backing JSON document `thrift_data.json`. -/
inductive StoredDoc where
  /-- the top-level value is a JSON object parsed into the member mapping -/
  | obj (entries : List (String × Member))
  /-- the top-level value is a JSON array -/
  | arr (elems : List Member)
  /-- any other top-level JSON value -/
  | scalar
deriving DecidableEq

/-- `ThriftManager.load_data` (src/app.py lines 23–34): a missing file or a
non-dict top level yields the empty mapping; a dict top level is returned
as is. -/
def load_data : Option StoredDoc → List (String × Member)
  | none => []
  | some (.obj d) => d
  | some (.arr _) => []
  | some .scalar => []

/-- State of a `ThriftManager`: the in-memory mapping plus the persisted
document (`none` models a file that does not exist). -/
structure ManagerState where
  data : List (String × Member)
  file : Option StoredDoc
deriving DecidableEq

/-- `ThriftManager.save_data` (src/app.py lines 36–39): rewrite the whole
document from the in-memory mapping. -/
def save_data (s : ManagerState) : ManagerState :=
  { s with file := some (StoredDoc.obj s.data) }

/-- `ThriftManager.add_member` (src/app.py lines 61–64): unconditional
assignment followed by a save. -/
def add_member (s : ManagerState) (member_id : String) (member_data : Member) :
    ManagerState :=
  save_data { s with data := setMember s.data member_id member_data }

/-- Outcome reported by the Add-Member page. -/
inductive AddMemberOutcome where
  | missingFields
  | duplicateMember
  | added
deriving DecidableEq

/-- The submission branch of `add_member_page` (src/app.py lines 333–352):
required-field check, then the duplicate-id check, then
`manager.add_member` on a freshly built record with empty `ThriftRecords`. -/
def add_member_page (s : ManagerState) (member_id member_name ms_no : String)
    (share_capital : ℚ) (opening_date : String) (opening_balance : ℚ) :
    AddMemberOutcome × ManagerState :=
  if member_id = "" ∨ member_name = "" ∨ ms_no = "" then
    (.missingFields, s)
  else if (lookupMember s.data member_id).isSome then
    (.duplicateMember, s)
  else
    let new_member : Member :=
      { MemberName := some member_name
        MSNo := some ms_no
        ShareCapital := some share_capital
        OpeningBalance := some { Date := some opening_date,
                                 ThriftBalance := some opening_balance }
        ThriftRecords := some [] }
    (.added, add_member s member_id new_member)

/-- `ThriftManager.add_transaction` (src/app.py lines 88–98): absent id fails
with no mutation; otherwise `ThriftRecords` is initialized to `[]` when the
key is missing, the transaction is appended, and the store is saved. -/
def add_transaction (s : ManagerState) (member_id : String) (txn : Transaction) :
    Bool × ManagerState :=
  match lookupMember s.data member_id with
  | none => (false, s)
  | some m =>
    let m2 := { m with ThriftRecords := some (m.ThriftRecords.getD [] ++ [txn]) }
    (true, save_data { s with data := setMember s.data member_id m2 })

theorem lookup_setMember_self (d : List (String × Member)) (id : String)
    (m : Member) : lookupMember (setMember d id m) id = some m := by
  induction d with
  | nil => simp [setMember, lookupMember]
  | cons p rest ih =>
    obtain ⟨k, v⟩ := p
    by_cases h : k = id
    · simp [setMember, lookupMember, h]
    · simp [setMember, lookupMember, h, ih]

theorem lookup_setMember_other (d : List (String × Member)) (id k : String)
    (m : Member) (hk : k ≠ id) :
    lookupMember (setMember d id m) k = lookupMember d k := by
  have hik : (id = k) = False := eq_false fun h => hk h.symm
  induction d with
  | nil => simp [setMember, lookupMember, hik]
  | cons p rest ih =>
    obtain ⟨k2, v⟩ := p
    by_cases h : k2 = id
    · subst h
      simp [setMember, lookupMember, hik]
    · by_cases h2 : k2 = k
      · subst h2
        simp [setMember, lookupMember, h]
      · simp [setMember, lookupMember, h, h2, ih]

/-- The fallback sample member of `init_basic_sample_data`, with an empty
transaction list (used below as a concrete store inhabitant). -/
def sampleMember : Member :=
  { MemberName := some "Ramu Parasinma"
    MSNo := some "7036"
    ShareCapital := some 800
    OpeningBalance := some { Date := some "2024-12-31",
                             ThriftBalance := some 375463 }
    ThriftRecords := some [] }

/-- A concrete one-member manager state. -/
def sampleState : ManagerState :=
  { data := [("1070135", sampleMember)], file := none }

/-- A concrete transaction (the sample transaction of
`init_basic_sample_data`, with the engine's recomputed interest amount). -/
def sampleTxn : Transaction :=
  { Date := some "2025-01-14"
    Recovery := some 120000
    ReceiptNumber := some "RCP123"
    Paid := some 495463
    Balance := some 495463
    DaysHeld := some 167
    InterestRate := some 10.8
    InterestAmount := some 5929.64
    TransactionType := some "Bulk"
    InterestBand := some "10.8%" }

/-- Claim C4: with the required form fields filled, submitting the Add-Member
page on an id already in the store reports the duplicate and leaves the state
untouched; on an absent id it inserts the freshly built record, persists, and
leaves every other member unchanged. -/
theorem add_member_page_duplicate_spec (s : ManagerState)
    (id nm ms : String) (sc : ℚ) (od : String) (ob : ℚ)
    (hid : id ≠ "") (hnm : nm ≠ "") (hms : ms ≠ "") :
    ((lookupMember s.data id).isSome = true →
        add_member_page s id nm ms sc od ob = (.duplicateMember, s))
    ∧ (lookupMember s.data id = none →
        (add_member_page s id nm ms sc od ob).1 = .added
        ∧ lookupMember (add_member_page s id nm ms sc od ob).2.data id =
            some { MemberName := some nm
                   MSNo := some ms
                   ShareCapital := some sc
                   OpeningBalance := some { Date := some od,
                                            ThriftBalance := some ob }
                   ThriftRecords := some [] }
        ∧ (add_member_page s id nm ms sc od ob).2.file =
            some (.obj (add_member_page s id nm ms sc od ob).2.data)
        ∧ ∀ k, k ≠ id →
            lookupMember (add_member_page s id nm ms sc od ob).2.data k =
              lookupMember s.data k) := by
  have hcond : ¬ (id = "" ∨ nm = "" ∨ ms = "") := by
    simp [hid, hnm, hms]
  constructor
  · intro h
    unfold add_member_page
    rw [if_neg hcond, if_pos h]
  · intro h
    have h2 : ¬ (lookupMember s.data id).isSome = true := by
      rw [h]
      simp
    unfold add_member_page add_member save_data
    rw [if_neg hcond, if_neg h2]
    refine ⟨rfl, ?_, rfl, ?_⟩
    · exact lookup_setMember_self s.data id _
    · intro k hk
      exact lookup_setMember_other s.data id k _ hk

/-- Witness for C4's theorem: adding id `1070135` over `sampleState` (where it
is present) reports the duplicate and changes nothing. -/
theorem add_member_page_duplicate_spec_witness :
    add_member_page sampleState "1070135" "New Name" "1234" 800 "2025-01-01" 0 =
      (.duplicateMember, sampleState) :=
  (add_member_page_duplicate_spec sampleState "1070135" "New Name" "1234" 800
    "2025-01-01" 0 (by decide) (by decide) (by decide)).1 (by decide)

/-- Claim C5: `add_transaction` on an absent id returns `false` and leaves the
in-memory mapping and the persisted document unchanged; on a present id it
returns `true`, appends the transaction to that member's `ThriftRecords`
(initializing the missing list to `[]`), persists the updated mapping, and
leaves every other member unchanged. -/
theorem add_transaction_spec (s : ManagerState) (id : String)
    (txn : Transaction) :
    (lookupMember s.data id = none → add_transaction s id txn = (false, s))
    ∧ ∀ m, lookupMember s.data id = some m →
        (add_transaction s id txn).1 = true
        ∧ (add_transaction s id txn).2.data =
            setMember s.data id
              { m with ThriftRecords := some (m.ThriftRecords.getD [] ++ [txn]) }
        ∧ lookupMember (add_transaction s id txn).2.data id =
            some { m with ThriftRecords := some (m.ThriftRecords.getD [] ++ [txn]) }
        ∧ (add_transaction s id txn).2.file =
            some (.obj (add_transaction s id txn).2.data)
        ∧ ∀ k, k ≠ id →
            lookupMember (add_transaction s id txn).2.data k =
              lookupMember s.data k := by
  constructor
  · intro h
    unfold add_transaction
    rw [h]
  · intro m h
    unfold add_transaction save_data
    rw [h]
    refine ⟨rfl, rfl, ?_, rfl, ?_⟩
    · exact lookup_setMember_self s.data id _
    · intro k hk
      exact lookup_setMember_other s.data id k _ hk

/-- Witness for C5's theorem: an id absent from `sampleState` makes
`add_transaction` fail and leave the whole state (file included) as it was. -/
theorem add_transaction_spec_witness :
    add_transaction sampleState "9999999" sampleTxn = (false, sampleState) :=
  (add_transaction_spec sampleState "9999999" sampleTxn).1 (by decide)

/-- Claim C6: `load_data` yields the empty mapping for a missing file, the
parsed mapping for a dict-shaped document, and the empty mapping (not an
error) for an array-shaped or scalar-shaped document. -/
theorem load_data_spec :
    load_data none = []
    ∧ (∀ d, load_data (some (.obj d)) = d)
    ∧ (∀ l, load_data (some (.arr l)) = [])
    ∧ load_data (some .scalar) = [] :=
  ⟨rfl, fun _ => rfl, fun _ => rfl, rfl⟩

/-- `member.get('OpeningBalance', {}).get('ThriftBalance', 0)` (src/app.py
line 298). -/
def openingThrift (m : Member) : ℚ :=
  match m.OpeningBalance with
  | some ob => ob.ThriftBalance.getD 0
  | none => 0

/-- The five figures of the per-member summary panel. -/
structure SummaryPanel where
  total_recovery : ℚ
  interest_108 : ℚ
  interest_85 : ℚ
  grand_interest : ℚ
  final_balance : ℚ
deriving DecidableEq

/-- The aggregation of `display_summary_panel` (src/app.py lines 284–299):
total recovery, per-rate interest sums (absent fields defaulting to 0),
grand interest, and the final balance on top of the opening thrift
balance. -/
def display_summary_panel (m : Member) : SummaryPanel :=
  let transactions := m.ThriftRecords.getD []
  let total_recovery := (transactions.map (fun t => t.Recovery.getD 0)).sum
  let interest_108 :=
    ((transactions.filter (fun t => decide (t.InterestRate = some (10.8 : ℚ)))).map
      (fun t => t.InterestAmount.getD 0)).sum
  let interest_85 :=
    ((transactions.filter (fun t => decide (t.InterestRate = some (8.5 : ℚ)))).map
      (fun t => t.InterestAmount.getD 0)).sum
  let grand_interest := interest_108 + interest_85
  let final_balance := openingThrift m + total_recovery + grand_interest
  { total_recovery := total_recovery
    interest_108 := interest_108
    interest_85 := interest_85
    grand_interest := grand_interest
    final_balance := final_balance }

/-- Claim C7: the summary fields are the claimed sums — total recovery over
all transactions, interest at each rate over the transactions carrying
exactly that rate, grand interest as their sum, and the final balance as
opening balance + total recovery + grand interest — and an empty transaction
list yields the all-zero summary whose final balance is the opening
balance. -/
theorem display_summary_panel_spec (m : Member) :
    (display_summary_panel m).total_recovery =
        ((m.ThriftRecords.getD []).map (fun t => t.Recovery.getD 0)).sum
    ∧ (display_summary_panel m).interest_108 =
        (((m.ThriftRecords.getD []).filter
            (fun t => decide (t.InterestRate = some (10.8 : ℚ)))).map
          (fun t => t.InterestAmount.getD 0)).sum
    ∧ (display_summary_panel m).interest_85 =
        (((m.ThriftRecords.getD []).filter
            (fun t => decide (t.InterestRate = some (8.5 : ℚ)))).map
          (fun t => t.InterestAmount.getD 0)).sum
    ∧ (display_summary_panel m).grand_interest =
        (display_summary_panel m).interest_108 +
          (display_summary_panel m).interest_85
    ∧ (display_summary_panel m).final_balance =
        openingThrift m + (display_summary_panel m).total_recovery +
          (display_summary_panel m).grand_interest
    ∧ (m.ThriftRecords.getD [] = [] →
        display_summary_panel m = ⟨0, 0, 0, 0, openingThrift m⟩) := by
  refine ⟨rfl, rfl, rfl, rfl, rfl, ?_⟩
  intro h
  simp [display_summary_panel, h]

/-- Witness for C7's theorem: `sampleMember` has an empty transaction list,
so its summary is all zeroes with the opening balance as final balance. -/
theorem display_summary_panel_spec_witness :
    display_summary_panel sampleMember = ⟨0, 0, 0, 0, openingThrift sampleMember⟩ :=
  (display_summary_panel_spec sampleMember).2.2.2.2.2 (by decide)

/-- `needle.isPrefixOf hay` on character lists, written out structurally. -/
def charsStartWith : List Char → List Char → Bool
  | [], _ => true
  | _ :: _, [] => false
  | a :: as, b :: bs => a == b && charsStartWith as bs

/-- Python's substring test `needle in hay` on character lists. -/
def charsContain (needle : List Char) : List Char → Bool
  | [] => needle.isEmpty
  | c :: rest => charsStartWith needle (c :: rest) || charsContain needle rest

/-- Python's `needle in hay` on strings. -/
def substrB (needle hay : String) : Bool := charsContain needle.data hay.data

/-- Python's `str.lower()` (ASCII case folding, as the member data uses). -/
def strLower (s : String) : String := ⟨s.data.map Char.toLower⟩

/-- A search hit: the member record annotated with its `MemberID`
(`{**member_data, "MemberID": member_id}`). -/
structure SearchResult where
  member : Member
  MemberID : String
deriving DecidableEq

/-- The match condition of `ThriftManager.search_members` for one entry:
the (already lowercased) term occurs in the lowercased id, name, or
string-coerced MS number. -/
def memberMatches (t : String) (member_id : String) (m : Member) : Bool :=
  substrB t (strLower member_id)
  || substrB t (strLower (m.MemberName.getD ""))
  || substrB t (strLower (m.MSNo.getD ""))

/-- The accumulation loop of `search_members` (src/app.py lines 80–84). -/
def searchLoop (t : String) : List (String × Member) → List SearchResult
  | [] => []
  | (id, m) :: rest =>
    if memberMatches t id m then
      { member := m, MemberID := id } :: searchLoop t rest
    else
      searchLoop t rest

/-- `ThriftManager.search_members` (src/app.py lines 75–86): lowercase the
term, then scan the mapping in order. -/
def search_members (data : List (String × Member)) (term : String) :
    List SearchResult :=
  searchLoop (strLower term) data

theorem searchLoop_eq_filter (t : String) (l : List (String × Member)) :
    searchLoop t l =
      (l.filter (fun p => memberMatches t p.1 p.2)).map
        (fun p => { member := p.2, MemberID := p.1 }) := by
  induction l with
  | nil => rfl
  | cons p rest ih =>
    obtain ⟨id, m⟩ := p
    cases hm : memberMatches t id m <;>
      simp [searchLoop, hm, ih, List.filter_cons]

/-- Claim C8: `search_members` returns exactly the members whose lowercased
id, name, or MS number contains the lowercased term, each annotated with its
`MemberID` and in store order; when nothing matches the result is empty. -/
theorem search_members_spec (data : List (String × Member)) (term : String) :
    search_members data term =
      (data.filter (fun p =>
        substrB (strLower term) (strLower p.1)
        || substrB (strLower term) (strLower (p.2.MemberName.getD ""))
        || substrB (strLower term) (strLower (p.2.MSNo.getD "")))).map
        (fun p => { member := p.2, MemberID := p.1 })
    ∧ ((∀ p ∈ data, memberMatches (strLower term) p.1 p.2 = false) →
        search_members data term = []) := by
  constructor
  · exact searchLoop_eq_filter (strLower term) data
  · intro h
    have hf : data.filter (fun p => memberMatches (strLower term) p.1 p.2) = [] :=
      List.filter_eq_nil_iff.mpr (fun a ha => by simp [h a ha])
    unfold search_members
    rw [searchLoop_eq_filter, hf]
    rfl

/-- Witness for C8's theorem: the term `"zzz"` matches nothing in
`sampleState`'s store, so the search result is empty. -/
theorem search_members_spec_witness :
    search_members [("1070135", sampleMember)] "zzz" = [] :=
  (search_members_spec [("1070135", sampleMember)] "zzz").2 (by decide)

theorem charsStartWith_nil (l : List Char) : charsStartWith [] l = true := by
  cases l <;> rfl

theorem charsContain_nil (l : List Char) : charsContain [] l = true := by
  induction l with
  | nil => rfl
  | cons c rest ih => simp [charsContain, charsStartWith_nil]

theorem substrB_empty (s : String) : substrB "" s = true :=
  charsContain_nil s.data

/-- Claim C10: searching with the empty term returns every member in store
order, each annotated with its `MemberID`, since the empty string is a
substring of every field. -/
theorem search_members_empty_term (data : List (String × Member)) :
    search_members data "" =
      data.map (fun p => { member := p.2, MemberID := p.1 }) := by
  unfold search_members
  have hl : strLower "" = "" := rfl
  rw [hl]
  induction data with
  | nil => rfl
  | cons p rest ih =>
    obtain ⟨id, m⟩ := p
    have hm : memberMatches "" id m = true := by
      simp [memberMatches, substrB_empty]
    simp [searchLoop, hm, ih]
